import Mathlib

/-!
Verification of the lead-tracker service (`src/main.py`) against its
natural-language specification.  The Python source is shallowly embedded:
pure request handlers become Lean functions over an explicit database
state; SQL queries are modelled by (query-text, bound-parameter) pairs and
by executable row predicates mirroring their WHERE clauses; the JWT layer
is modelled abstractly by a signed claim record.
-/

namespace LeadTracker

/-- A bound SQL parameter as passed to `cursor.execute`. -/
inductive SqlParam where
  | s (v : String)
  | i (v : Int)
  | null
deriving DecidableEq, Repr

/-- An HTTP error raised via `HTTPException(status_code, detail)`. -/
structure HttpExc where
  status : Nat
  detail : String
deriving DecidableEq, Repr

/-- Row of the `users` table / the `UserInDB` pydantic model:
`id, username, role, agent_id, active`. -/
structure UserInDB where
  id : Nat
  username : String
  role : String
  agent_id : Option Nat
  active : Bool
deriving DecidableEq, Repr

/-- Row of the `agents` table (columns used by the handlers). -/
structure AgentRow where
  id : Nat
  name : String
  cinc_id : String
  site : String
  email : Option String
deriving DecidableEq, Repr

/-- Row of the `visitors` table (equivalently a `visitor_details` row for
the columns the handlers filter on).  `cinc_synced` is the 0/1 integer
column with schema default 0 (`scripts/migrate_visitors.py`);
`created_at` holds the ISO timestamp. -/
structure Visitor where
  id : Nat
  buyer_name : String
  buyer_phone : String
  buyer_email : Option String
  purchase_timeline : Option String
  price_range : Option String
  location_looking : Option String
  location_current : Option String
  occupation : Option String
  represented : Bool
  agent_name : Option String
  capturing_agent_id : Nat
  site : String
  cinc_synced : Nat
  cinc_sync_at : Option String
  created_at : String
  updated_at : String
deriving DecidableEq, Repr

/-- Row of the `visitor_notes` table. -/
structure NoteRow where
  id : Nat
  visitor_id : Nat
  agent_id : Nat
  note : String
deriving DecidableEq, Repr

/-- The SQLite database state touched by the embedded handlers, with the
autoincrement counters made explicit. -/
structure Db where
  users : List UserInDB
  agents : List AgentRow
  visitors : List Visitor
  notes : List NoteRow
  nextUserId : Nat
  nextVisitorId : Nat
  nextNoteId : Nat
deriving DecidableEq, Repr

/-- `SELECT ... FROM users WHERE username = ? AND active = 1` (first row). -/
def lookupActive (users : List UserInDB) (username : String) : Option UserInDB :=
  users.find? (fun u => u.username == username && u.active)

/-- Set `active = 0` on every row of the given username. -/
def deactivateUser (users : List UserInDB) (username : String) : List UserInDB :=
  users.map (fun u => if u.username == username then { u with active := false } else u)

/-! ### Session tokens (`create_access_token`, `get_current_user`) -/

/-- A JWT modelled abstractly: the claim set `{sub, exp}` plus the key the
token was signed with (signature verification = key comparison). -/
structure Jwt where
  sub : Option String
  exp : Nat
  signedWith : String
deriving DecidableEq, Repr

/-- `create_access_token(data={sub}, expires_delta)`: expiry is `now +
expires_delta`, or `now + 15` minutes when no delta is supplied. -/
def create_access_token (key : String) (now : Nat) (sub : String)
    (expiresDelta : Option Nat) : Jwt :=
  { sub := some sub
    exp := now + (match expiresDelta with | some d => d | none => 15)
    signedWith := key }

/-- Outcome of `jwt.decode`: a bad signature or an expired token raise
`JWTError` subclasses; otherwise the payload (with its optional `sub`
claim) is returned. -/
inductive TokenCheck where
  | valid (sub : Option String)
  | badSignature
  | expired
deriving DecidableEq, Repr

/-- `jwt.decode(token, SECRET_KEY, algorithms=[ALGORITHM])` at time `now`. -/
def jwtDecode (serverKey : String) (now : Nat) (t : Jwt) : TokenCheck :=
  if t.signedWith != serverKey then .badSignature
  else if t.exp ≤ now then .expired
  else .valid t.sub

/-- The single 401 raised by `get_current_user` on every failure path. -/
def credentials_exception : HttpExc :=
  { status := 401, detail := "Could not validate credentials" }

/-- `get_current_user`: every `JWTError` (bad signature or expiry), a
missing `sub` claim, and a subject that does not resolve to an active
user all raise the same `credentials_exception`. -/
def get_current_user (tok : TokenCheck) (users : List UserInDB) :
    Except HttpExc UserInDB :=
  match tok with
  | .badSignature => .error credentials_exception
  | .expired => .error credentials_exception
  | .valid none => .error credentials_exception
  | .valid (some sub) =>
    match lookupActive users sub with
    | none => .error credentials_exception
    | some u => .ok u

/-- Decoding followed by `get_current_user`: full token resolution. -/
def resolveToken (serverKey : String) (now : Nat) (t : Jwt)
    (users : List UserInDB) : Except HttpExc UserInDB :=
  get_current_user (jwtDecode serverKey now t) users

/-! ### Query compiler (`list_visitors`, `export_visitors_csv`, `get_stats`,
`get_analytics`) -/

/-- The `SortField` enum: the closed allow-list of sortable columns. -/
inductive SortField where
  | created_at
  | buyer_name
  | site
  | updated_at
deriving DecidableEq, Repr

/-- The string value of a `SortField` member. -/
def SortField.value : SortField → String
  | .created_at => "created_at"
  | .buyer_name => "buyer_name"
  | .site => "site"
  | .updated_at => "updated_at"

/-- FastAPI coercion of the `sort_by` query parameter into the `SortField`
enum: any string outside the enum values is rejected with a 422
validation error before the handler body runs (modelled as `none`). -/
def parseSortField (s : String) : Option SortField :=
  if s == "created_at" then some .created_at
  else if s == "buyer_name" then some .buyer_name
  else if s == "site" then some .site
  else if s == "updated_at" then some .updated_at
  else none

/-- The `SortOrder` enum. -/
inductive SortOrder where
  | asc
  | desc
deriving DecidableEq, Repr

/-- `sort_order.value.upper()`. -/
def SortOrder.upperValue : SortOrder → String
  | .asc => "ASC"
  | .desc => "DESC"

/-- The optional caller-supplied filters of `list_visitors`. -/
structure ListFilters where
  site : Option String
  search : Option String
  date_from : Option String
  date_to : Option String
  purchase_timeline : Option String
  price_range : Option String
  cinc_synced : Option Bool
deriving DecidableEq, Repr

/-- Python truthiness of an optional string (`if site:` skips both `None`
and the empty string). -/
def optTruthy (o : Option String) : Option String :=
  match o with
  | some s => if s == "" then none else some s
  | none => none

/-- The bound parameter for `current_user.agent_id` (SQL NULL when the
account has no linked agent). -/
def agentParam (o : Option Nat) : SqlParam :=
  match o with
  | some a => .i a
  | none => .null

/-- One optional condition appended to `where_conditions`: present
exactly when its filter is. -/
def condSeg {α : Type} (a : Option α) (c : List String) : List String :=
  match a with
  | some _ => c
  | none => []

/-- The `where_conditions` list built by `list_visitors`, in source
order: role scope first, then the optional filters. -/
def whereConds (u : UserInDB) (f : ListFilters) : List String :=
  (if u.role == "user" then ["capturing_agent_id = ?"] else []) ++
  condSeg (optTruthy f.site) ["site = ?"] ++
  condSeg (optTruthy f.search)
    ["(buyer_name LIKE ? OR buyer_phone LIKE ? OR buyer_email LIKE ?)"] ++
  condSeg (optTruthy f.date_from) ["DATE(created_at) >= DATE(?)"] ++
  condSeg (optTruthy f.date_to) ["DATE(created_at) <= DATE(?)"] ++
  condSeg f.purchase_timeline ["purchase_timeline = ?"] ++
  condSeg f.price_range ["price_range = ?"] ++
  condSeg f.cinc_synced ["cinc_synced = ?"]

/-- The `params` list built by `list_visitors`, parallel to `whereConds`. -/
def whereParams (u : UserInDB) (f : ListFilters) : List SqlParam :=
  (if u.role == "user" then [agentParam u.agent_id] else []) ++
  (match optTruthy f.site with | some s => [.s s] | none => []) ++
  (match optTruthy f.search with
    | some q => [.s ("%" ++ q ++ "%"), .s ("%" ++ q ++ "%"), .s ("%" ++ q ++ "%")]
    | none => []) ++
  (match optTruthy f.date_from with | some d => [.s d] | none => []) ++
  (match optTruthy f.date_to with | some d => [.s d] | none => []) ++
  (match f.purchase_timeline with | some t => [.s t] | none => []) ++
  (match f.price_range with | some p => [.s p] | none => []) ++
  (match f.cinc_synced with | some b => [.i (if b then 1 else 0)] | none => [])

/-- `" AND ".join(where_conditions) if where_conditions else "1=1"`. -/
def whereClause (u : UserInDB) (f : ListFilters) : String :=
  if whereConds u f == [] then "1=1"
  else String.intercalate " AND " (whereConds u f)

/-- The column placed in the ORDER BY position: `sort_by.value`. -/
def listOrderColumn (sb : SortField) : String := sb.value

/-- The count query text of `list_visitors`. -/
def countQueryText (u : UserInDB) (f : ListFilters) : String :=
  "SELECT COUNT(*) as total FROM visitor_details WHERE " ++ whereClause u f

/-- The page query text of `list_visitors` (whitespace normalised). -/
def listVisitorsQueryText (u : UserInDB) (f : ListFilters)
    (sb : SortField) (so : SortOrder) : String :=
  "SELECT * FROM visitor_details WHERE " ++ whereClause u f ++
  " ORDER BY " ++ listOrderColumn sb ++ " " ++ so.upperValue ++
  " LIMIT ? OFFSET ?"

/-- The bound parameters of the page query: the filter params followed by
`page_size` and `offset`. -/
def listVisitorsParams (u : UserInDB) (f : ListFilters)
    (pageSize offset : Nat) : List SqlParam :=
  whereParams u f ++ [.i pageSize, .i offset]

/-- Which filters are present (the shape of the filter set). -/
def ListFilters.shape (f : ListFilters) :
    Bool × Bool × Bool × Bool × Bool × Bool × Bool :=
  ((optTruthy f.site).isSome, (optTruthy f.search).isSome,
   (optTruthy f.date_from).isSome, (optTruthy f.date_to).isSome,
   f.purchase_timeline.isSome, f.price_range.isSome, f.cinc_synced.isSome)

/-! ### SQL row semantics of the compiled WHERE clauses -/

/-- Substring test on character lists. -/
def charsContain : List Char → List Char → Bool
  | _, [] => true
  | [], _ :: _ => false
  | c :: t, n => List.isPrefixOf n (c :: t) || charsContain t n

/-- Semantics of a LIKE condition with a %-wrapped pattern (SQLite LIKE is ASCII
case-insensitive): case-folded substring containment. -/
def likeContains (hay q : String) : Bool :=
  charsContain hay.toLower.toList q.toLower.toList

/-- SQLite `DATE(...)` on an ISO-8601 timestamp: its date part. -/
def dateOf (s : String) : String := s.take 10

/-- Decidable string order (ISO dates compare correctly as strings). -/
def strLe (a b : String) : Bool := a == b || decide (a < b)

/-- Semantics of `capturing_agent_id = ?` with the agent id of the caller
bound: comparison with SQL NULL is never true. -/
def scopePred (u : UserInDB) (v : Visitor) : Bool :=
  match u.agent_id with
  | some a => v.capturing_agent_id == a
  | none => false

/-- Row semantics of the caller-supplied filter conditions of
`list_visitors` (everything except the role scope), conjoined in source
order.  NULL columns fail equality and LIKE conditions. -/
def filtersPred (f : ListFilters) (v : Visitor) : Bool :=
  (match optTruthy f.site with | some s => v.site == s | none => true) &&
  (match optTruthy f.search with
    | some q =>
      likeContains v.buyer_name q || likeContains v.buyer_phone q ||
      (match v.buyer_email with | some e => likeContains e q | none => false)
    | none => true) &&
  (match optTruthy f.date_from with
    | some d => strLe (dateOf d) (dateOf v.created_at)
    | none => true) &&
  (match optTruthy f.date_to with
    | some d => strLe (dateOf v.created_at) (dateOf d)
    | none => true) &&
  (match f.purchase_timeline with
    | some t => (match v.purchase_timeline with | some pt => pt == t | none => false)
    | none => true) &&
  (match f.price_range with
    | some p => (match v.price_range with | some pr => pr == p | none => false)
    | none => true) &&
  (match f.cinc_synced with
    | some b => v.cinc_synced == (if b then 1 else 0)
    | none => true)

/-- Row semantics of the full compiled WHERE clause of `list_visitors`:
the role-derived scope condition ANDed with the filter conditions. -/
def visitorMatches (u : UserInDB) (f : ListFilters) (v : Visitor) : Bool :=
  (if u.role == "user" then scopePred u v else true) && filtersPred f v

/-- Sort key comparison for the four sortable columns. -/
def sortKeyLe (sb : SortField) (a b : Visitor) : Bool :=
  match sb with
  | .created_at => strLe a.created_at b.created_at
  | .buyer_name => strLe a.buyer_name b.buyer_name
  | .site => strLe a.site b.site
  | .updated_at => strLe a.updated_at b.updated_at

/-- `ORDER BY column ASC|DESC` over the matched rows. -/
def sortRows (sb : SortField) (so : SortOrder) (rows : List Visitor) :
    List Visitor :=
  match so with
  | .asc => rows.mergeSort (sortKeyLe sb)
  | .desc => rows.mergeSort (fun a b => sortKeyLe sb b a)

/-- The `list_visitors` handler: pagination validation, then count and
page computed from the same compiled predicate; the page applies
`LIMIT page_size OFFSET (page-1)*page_size` after sorting.  Returns the
page items and the total match count. -/
def list_visitors (u : UserInDB) (f : ListFilters) (sb : SortField)
    (so : SortOrder) (page pageSize : Nat) (db : Db) :
    Except HttpExc (List Visitor × Nat) :=
  if page < 1 then .error { status := 400, detail := "Page must be >= 1" }
  else if pageSize < 1 || pageSize > 100 then
    .error { status := 400, detail := "Page size must be between 1 and 100" }
  else
    let rows := db.visitors.filter (visitorMatches u f)
    let pageItems := ((sortRows sb so rows).drop ((page - 1) * pageSize)).take pageSize
    .ok (pageItems, rows.length)

/-- Notes of a visitor as fetched by `get_visitor` (join with agents
omitted; ordering irrelevant to the properties below). -/
def visitorNotes (db : Db) (vid : Nat) : List NoteRow :=
  db.notes.filter (fun n => n.visitor_id == vid)

/-- The `get_visitor` handler: 404 when absent; 403 when a `user`-role
`agent_id` of the caller differs from the `capturing_agent_id` of the row
(Python `!=` between an int column and an optional caller id). -/
def get_visitor (u : UserInDB) (vid : Nat) (db : Db) :
    Except HttpExc (Visitor × List NoteRow) :=
  match db.visitors.find? (fun v => v.id == vid) with
  | none => .error { status := 404, detail := "Visitor not found" }
  | some v =>
    if u.role == "user" && (some v.capturing_agent_id != u.agent_id) then
      .error { status := 403, detail := "Not authorized to view this visitor" }
    else
      .ok (v, visitorNotes db vid)

/-- Row semantics of the WHERE clause of the admin branches of
`export_visitors_csv` (site filter only). -/
def exportSitePred (site : Option String) (v : Visitor) : Bool :=
  match optTruthy site with
  | some s => v.site == s
  | none => true

/-- Row semantics of the WHERE clause of `export_visitors_csv`: `user`
callers get `capturing_agent_id = ?` conjoined, admins do not. -/
def exportPred (u : UserInDB) (site : Option String) (v : Visitor) : Bool :=
  if u.role == "user" then exportSitePred site v && scopePred u v
  else exportSitePred site v

/-- The rows written by `export_visitors_csv` (ORDER BY created_at DESC
permutes them; membership is what the scoping property is about). -/
def export_visitors_csv (u : UserInDB) (site : Option String) (db : Db) :
    List Visitor :=
  sortRows .created_at .desc (db.visitors.filter (exportPred u site))

/-! ### Dashboard statistics (`get_stats`) -/

/-- Row predicate of the `user`-branch total-visitors COUNT query
(`site = ?` when a site filter is given, always `capturing_agent_id = ?`). -/
def statsTotalPredUser (u : UserInDB) (site : Option String) (v : Visitor) : Bool :=
  (match optTruthy site with | some s => v.site == s | none => true) && scopePred u v

/-- Row predicate of the `user`-branch today-visitors COUNT query. -/
def statsTodayPredUser (u : UserInDB) (site : Option String) (today : String)
    (v : Visitor) : Bool :=
  (match optTruthy site with | some s => v.site == s | none => true) &&
  scopePred u v && (dateOf v.created_at == today)

/-- Row predicate of the `user`-branch synced COUNT query
(`cinc_synced = 1 AND capturing_agent_id = ?`; the source ignores the
site filter here in both branches). -/
def statsSyncedPredUser (u : UserInDB) (v : Visitor) : Bool :=
  (v.cinc_synced == 1) && scopePred u v

/-- Row predicate of the admin-branch total-visitors COUNT query. -/
def statsTotalPredAdmin (site : Option String) (v : Visitor) : Bool :=
  match optTruthy site with | some s => v.site == s | none => true

/-- Row predicate of the admin-branch today-visitors COUNT query. -/
def statsTodayPredAdmin (site : Option String) (today : String) (v : Visitor) : Bool :=
  (match optTruthy site with | some s => v.site == s | none => true) &&
  (dateOf v.created_at == today)

/-- Row predicate of the admin-branch synced COUNT query. -/
def statsSyncedPredAdmin (v : Visitor) : Bool :=
  v.cinc_synced == 1

/-- The `/stats` response. -/
structure StatsResp where
  total_visitors : Nat
  today_visitors : Nat
  cinc_synced : Nat
deriving DecidableEq, Repr

/-- The `get_stats` handler: three COUNT queries, scoped to the agent of the
agent for `user`-role callers, unscoped for admins. -/
def get_stats (u : UserInDB) (site : Option String) (today : String) (db : Db) :
    StatsResp :=
  if u.role == "user" then
    { total_visitors := db.visitors.countP (statsTotalPredUser u site)
      today_visitors := db.visitors.countP (statsTodayPredUser u site today)
      cinc_synced := db.visitors.countP (statsSyncedPredUser u) }
  else
    { total_visitors := db.visitors.countP (statsTotalPredAdmin site)
      today_visitors := db.visitors.countP (statsTodayPredAdmin site today)
      cinc_synced := db.visitors.countP statsSyncedPredAdmin }

/-! ### Analytics queries (`get_analytics`) -/

/-- The role-scoped WHERE clause of `get_analytics` with its bound
parameters: assembled from `?` placeholders only. -/
def analyticsWhere (u : UserInDB) (site : Option String) : String × List SqlParam :=
  if u.role == "user" then
    match optTruthy site with
    | some s => ("WHERE capturing_agent_id = ? AND site = ?",
                 [agentParam u.agent_id, .s s])
    | none => ("WHERE capturing_agent_id = ?", [agentParam u.agent_id])
  else
    match optTruthy site with
    | some s => ("WHERE site = ?", [.s s])
    | none => ("", [])

/-- A single-quote character, as written by the f-string in the
leads-by-agent query. -/
def singleQuote : String := String.mk [Char.ofNat 39]

/-- The WHERE clause of the leads-by-agent query of `get_analytics`
(admin branch): the site value is interpolated into the SQL text by an
f-string. -/
def analyticsAgentWhere (site : Option String) : String :=
  match optTruthy site with
  | some s => "WHERE site = " ++ singleQuote ++ s ++ singleQuote
  | none => ""

/-- The leads-by-agent query of `get_analytics` (text, bound params):
it is executed with no bound parameters at all. -/
def analyticsAgentQuery (site : Option String) : String × List SqlParam :=
  ("SELECT a.name as agent_name, COUNT(v.id) as count FROM agents a " ++
   "LEFT JOIN visitors v ON a.id = v.capturing_agent_id " ++
   analyticsAgentWhere site ++
   " GROUP BY a.id, a.name ORDER BY count DESC", [])

/-- The four export queries of `export_visitors_csv` (text, bound
params), chosen by role and presence of the site filter. -/
def exportQuery (u : UserInDB) (site : Option String) : String × List SqlParam :=
  if u.role == "user" then
    match optTruthy site with
    | some s =>
      ("SELECT * FROM visitor_details WHERE site = ? AND capturing_agent_id = ? ORDER BY created_at DESC",
       [.s s, agentParam u.agent_id])
    | none =>
      ("SELECT * FROM visitor_details WHERE capturing_agent_id = ? ORDER BY created_at DESC",
       [agentParam u.agent_id])
  else
    match optTruthy site with
    | some s =>
      ("SELECT * FROM visitor_details WHERE site = ? ORDER BY created_at DESC", [.s s])
    | none =>
      ("SELECT * FROM visitor_details ORDER BY created_at DESC", [])

/-- The column in the ORDER BY position of every export query. -/
def exportOrderColumn : String := "created_at"

/-! ### Sync dispatcher (`sync_to_zapier`) and visitor creation -/

/-- Outcome of the outbound `requests.post` call: either an HTTP
response with a status code, or a raised `RequestException` (connection
error, timeout, ...). -/
inductive NetResult where
  | response (statusCode : Nat)
  | netError (msg : String)
deriving DecidableEq, Repr

/-- The dictionary returned by `sync_to_zapier`. -/
structure SyncOutcome where
  success : Bool
  error : Option String
  zapier_response : Option Nat
deriving DecidableEq, Repr

/-- `sync_to_zapier`: short-circuits on an unconfigured webhook URL;
`raise_for_status` turns a 4xx/5xx status into a `RequestException`,
which is caught and recorded; every failure carries an error string and
no failure is raised to the caller. -/
def sync_to_zapier (webhookUrl : String) (net : NetResult) : SyncOutcome :=
  if webhookUrl == "" then
    { success := false, error := some "Zapier webhook URL not configured",
      zapier_response := none }
  else
    match net with
    | .netError m =>
      { success := false, error := some m, zapier_response := none }
    | .response sc =>
      if 400 ≤ sc then
        { success := false, error := some ("HTTP error " ++ toString sc),
          zapier_response := none }
      else
        { success := true, error := none, zapier_response := some sc }

/-- The `VisitorCreate` request body (after pydantic validation). -/
structure VisitorCreate where
  buyer_name : String
  buyer_phone : String
  buyer_email : Option String
  purchase_timeline : Option String
  price_range : Option String
  location_looking : Option String
  location_current : Option String
  occupation : Option String
  represented : Bool
  agent_name : Option String
  capturing_agent_id : Nat
  site : String
  notes : Option String
deriving DecidableEq, Repr

/-- The JSON body returned by `create_visitor`. -/
structure CreateVisitorResp where
  id : Nat
  synced : Bool
  sync_error : Option String
deriving DecidableEq, Repr

/-- The `create_visitor` handler: agent lookup, visitor INSERT (the
`cinc_synced` column defaults to 0), optional initial note INSERT, the
Zapier dispatch, and a conditional `cinc_synced = 1` UPDATE only on
dispatch success.  The dispatch outcome never produces an error
result: the only error path is the missing agent. -/
def create_visitor (req : VisitorCreate) (url : String) (net : NetResult)
    (nowIso : String) (db : Db) : Except HttpExc (Db × CreateVisitorResp) :=
  match db.agents.find? (fun a => a.id == req.capturing_agent_id) with
  | none => .error { status := 404, detail := "Agent not found" }
  | some _ =>
    let vid := db.nextVisitorId
    let v : Visitor :=
      { id := vid, buyer_name := req.buyer_name, buyer_phone := req.buyer_phone
        buyer_email := req.buyer_email, purchase_timeline := req.purchase_timeline
        price_range := req.price_range, location_looking := req.location_looking
        location_current := req.location_current, occupation := req.occupation
        represented := req.represented, agent_name := req.agent_name
        capturing_agent_id := req.capturing_agent_id, site := req.site
        cinc_synced := 0, cinc_sync_at := none
        created_at := nowIso, updated_at := nowIso }
    let db1 := { db with visitors := db.visitors ++ [v], nextVisitorId := vid + 1 }
    let db2 :=
      match req.notes with
      | some n =>
        { db1 with
          notes := db1.notes ++
            [{ id := db1.nextNoteId, visitor_id := vid,
               agent_id := req.capturing_agent_id, note := n }]
          nextNoteId := db1.nextNoteId + 1 }
      | none => db1
    let outcome := sync_to_zapier url net
    let db3 :=
      if outcome.success then
        { db2 with
          visitors := db2.visitors.map (fun w =>
            if w.id == vid then
              { w with cinc_synced := 1, cinc_sync_at := some nowIso }
            else w) }
      else db2
    .ok (db3, { id := vid, synced := outcome.success, sync_error := outcome.error })

/-- Storage-level operations of `create_visitor` in execution order. -/
inductive DbOp where
  | insertVisitor
  | insertNote
  | dispatchSync
  | updateSyncFlag
  | commitTx
deriving DecidableEq, Repr

/-- The operation trace of one `create_visitor` request.  The whole
handler body runs inside a single `with get_db()` block and `get_db`
calls `conn.commit()` only when that block exits, so the one commit
comes after the dispatch and the conditional sync-flag update. -/
def create_visitor_trace (hasNotes syncSuccess : Bool) : List DbOp :=
  [.insertVisitor] ++ (if hasNotes then [.insertNote] else []) ++
  [.dispatchSync] ++ (if syncSuccess then [.updateSyncFlag] else []) ++
  [.commitTx]

/-! ### User management (`create_user`, `update_user`, `delete_user`)
and notes (`add_note`).  The `email`/`password_hash` columns are not part
of `UserInDB` (the pydantic identity model omits them); the embedded
update applies the remaining SET clauses. -/

/-- The `UserRole` enum (pydantic rejects any other value with a 422). -/
inductive Role where
  | super_admin
  | admin
  | user
deriving DecidableEq, Repr

/-- The string value of a `UserRole` member. -/
def Role.value : Role → String
  | .super_admin => "super_admin"
  | .admin => "admin"
  | .user => "user"

/-- The `UserCreate` request body (after pydantic validation). -/
structure UserCreate where
  username : String
  password : String
  email : Option String
  role : Role
  agent_id : Option Nat
deriving DecidableEq, Repr

/-- The INSERT of `create_user`: the `active` column defaults to 1. -/
def insertUserRow (req : UserCreate) (db : Db) : Db × UserInDB :=
  let row : UserInDB :=
    { id := db.nextUserId, username := req.username, role := req.role.value
      agent_id := req.agent_id, active := true }
  ({ db with users := db.users ++ [row], nextUserId := db.nextUserId + 1 }, row)

/-- The `create_user` handler, checks in source order: only a
super_admin may create a super_admin; duplicate username; referenced
agent must exist when an `agent_id` is supplied.  No check ties a
`user` role to a non-null `agent_id`. -/
def create_user (actor : UserInDB) (req : UserCreate) (db : Db) :
    Except HttpExc (Db × UserInDB) :=
  if req.role == Role.super_admin && actor.role != "super_admin" then
    .error { status := 403, detail := "Only super admin can create super admin users" }
  else if db.users.any (fun x => x.username == req.username) then
    .error { status := 400, detail := "Username already exists" }
  else if (match req.agent_id with
           | some a => !db.agents.any (fun ag => ag.id == a)
           | none => false) then
    .error { status := 404, detail := "Agent not found" }
  else
    .ok (insertUserRow req db)

/-- The `UserUpdate` request body: every field optional. -/
structure UserUpdate where
  email : Option String
  password : Option String
  role : Option Role
  agent_id : Option Nat
  active : Option Bool
deriving DecidableEq, Repr

/-- Whether any SET clause is generated. -/
def UserUpdate.hasUpdates (r : UserUpdate) : Bool :=
  r.email.isSome || r.password.isSome || r.role.isSome ||
  r.agent_id.isSome || r.active.isSome

/-- Application of the generated SET clauses to one row. -/
def applyUserUpdate (r : UserUpdate) (u : UserInDB) : UserInDB :=
  { u with
    role := (match r.role with | some ro => ro.value | none => u.role)
    agent_id := (match r.agent_id with | some a => some a | none => u.agent_id)
    active := (match r.active with | some b => b | none => u.active) }

/-- The `update_user` handler, checks in source order: target exists;
super_admin targets and super_admin role assignment are reserved to
super_admin actors; a supplied agent must exist; at least one update.
There is no check against the actor updating (or deactivating) their
own account. -/
def update_user (actor : UserInDB) (uid : Nat) (req : UserUpdate) (db : Db) :
    Except HttpExc Db :=
  match db.users.find? (fun x => x.id == uid) with
  | none => .error { status := 404, detail := "User not found" }
  | some target =>
    if target.role == "super_admin" && actor.role != "super_admin" then
      .error { status := 403, detail := "Only super admin can modify super admin users" }
    else if req.role == some Role.super_admin && actor.role != "super_admin" then
      .error { status := 403, detail := "Only super admin can assign super admin role" }
    else if (match req.agent_id with
             | some a => !db.agents.any (fun ag => ag.id == a)
             | none => false) then
      .error { status := 404, detail := "Agent not found" }
    else if !req.hasUpdates then
      .error { status := 400, detail := "No updates provided" }
    else
      .ok { db with
            users := db.users.map (fun x =>
              if x.id == uid then applyUserUpdate req x else x) }

/-- The `delete_user` handler: target exists; self-deletion rejected
with status 400; super_admin targets reserved to super_admin actors;
otherwise the row is deactivated (`active = 0`), never hard-deleted. -/
def delete_user (actor : UserInDB) (uid : Nat) (db : Db) :
    Except HttpExc Db :=
  match db.users.find? (fun x => x.id == uid) with
  | none => .error { status := 404, detail := "User not found" }
  | some target =>
    if uid == actor.id then
      .error { status := 400, detail := "Cannot delete your own account" }
    else if target.role == "super_admin" && actor.role != "super_admin" then
      .error { status := 403, detail := "Only super admin can delete super admin users" }
    else
      .ok { db with
            users := db.users.map (fun x =>
              if x.id == uid then { x with active := false } else x) }

/-- The `NoteCreate` request body. -/
structure NoteCreate where
  visitor_id : Nat
  agent_id : Nat
  note : String
deriving DecidableEq, Repr

/-- The `add_note` handler: only existence of the visitor (by the path
parameter) is checked; the note row takes its `agent_id` from the
request body, and `current_user` is never consulted. -/
def add_note (current_user : UserInDB) (vid : Nat) (req : NoteCreate)
    (nowIso : String) (db : Db) : Except HttpExc (Db × NoteRow) :=
  if db.visitors.any (fun v => v.id == vid) then
    let row : NoteRow :=
      { id := db.nextNoteId, visitor_id := vid, agent_id := req.agent_id
        note := req.note }
    .ok ({ db with
           notes := db.notes ++ [row]
           nextNoteId := db.nextNoteId + 1
           visitors := db.visitors.map (fun v =>
             if v.id == vid then { v with updated_at := nowIso } else v) },
         row)
  else .error { status := 404, detail := "Visitor not found" }

/-! ## Theorems -/

/-- Claim C6 (counterexample).  The claim states that bad-signature,
expired-token and unknown-or-inactive-subject failures are
distinguishable to the caller.  In `get_current_user` all three paths
raise the identical `credentials_exception` (401, "Could not validate
credentials"): at the concrete inputs below the three outcomes are
equal, so they are not distinguishable. -/
theorem token_failures_indistinguishable :
    get_current_user TokenCheck.badSignature []
      = get_current_user TokenCheck.expired []
    ∧ get_current_user TokenCheck.expired []
      = get_current_user (TokenCheck.valid (some "alice")) []
    ∧ get_current_user TokenCheck.badSignature []
      = Except.error credentials_exception :=
  ⟨rfl, rfl, rfl⟩

/-- Claim C6 (amended).  Token resolution fails on a bad signature, on
an expired token, and when the subject no longer resolves to an active
user, but all three failure modes produce the same 401
`credentials_exception`; they are not distinguishable to the caller. -/
theorem token_failure_modes_uniform (users : List UserInDB) (sub : String)
    (h : lookupActive users sub = none) :
    get_current_user TokenCheck.badSignature users
      = Except.error credentials_exception
    ∧ get_current_user TokenCheck.expired users
      = Except.error credentials_exception
    ∧ get_current_user (TokenCheck.valid (some sub)) users
      = Except.error credentials_exception := by
  refine ⟨rfl, rfl, ?_⟩
  simp [get_current_user, h]

/-- Witness for the amended C6 theorem at a concrete user list. -/
theorem token_failure_modes_uniform_witness :
    lookupActive [] "ghost" = none
    ∧ (get_current_user TokenCheck.badSignature []
         = Except.error credentials_exception
       ∧ get_current_user TokenCheck.expired []
         = Except.error credentials_exception
       ∧ get_current_user (TokenCheck.valid (some "ghost")) []
         = Except.error credentials_exception) :=
  ⟨rfl, token_failure_modes_uniform [] "ghost" rfl⟩

/-- After deactivation, the active-user lookup of `get_current_user`
finds nothing for that username. -/
theorem lookupActive_deactivate (users : List UserInDB) (s : String) :
    lookupActive (deactivateUser users s) s = none := by
  rw [lookupActive, List.find?_eq_none]
  intro x hx
  rcases List.mem_map.mp hx with ⟨y, _, rfl⟩
  by_cases h : y.username = s <;> simp [h]

/-- Claim C9.  Issuing a token for an active user U and resolving it at
once yields U itself (so the subject equals `U.username`); after U is
deactivated, the same still-unexpired token fails to resolve. -/
theorem token_roundtrip (key : String) (now d now2 : Nat)
    (users : List UserInDB) (u : UserInDB)
    (hd : 0 < d)
    (hu : lookupActive users u.username = some u)
    (h2 : now2 < now + d) :
    resolveToken key now (create_access_token key now u.username (some d)) users
      = Except.ok u
    ∧ resolveToken key now2 (create_access_token key now u.username (some d))
        (deactivateUser users u.username)
      = Except.error credentials_exception := by
  have hdec : jwtDecode key now (create_access_token key now u.username (some d))
      = TokenCheck.valid (some u.username) := by
    simp [jwtDecode, create_access_token]
    omega
  have hdec2 : jwtDecode key now2 (create_access_token key now u.username (some d))
      = TokenCheck.valid (some u.username) := by
    simp [jwtDecode, create_access_token]
    omega
  constructor
  · simp [resolveToken, hdec, get_current_user, hu]
  · have hnone := lookupActive_deactivate users u.username
    simp [resolveToken, hdec2, get_current_user, hnone]

/-- The active user row used by concrete witnesses. -/
def aliceRow : UserInDB :=
  { id := 1, username := "alice", role := "user", agent_id := some 7, active := true }

/-- Witness for C9 at a concrete user, key and clock. -/
theorem token_roundtrip_witness :
    0 < 480
    ∧ lookupActive [aliceRow] aliceRow.username = some aliceRow
    ∧ 10 < 0 + 480
    ∧ (resolveToken "k" 0
         (create_access_token "k" 0 aliceRow.username (some 480)) [aliceRow]
         = Except.ok aliceRow
       ∧ resolveToken "k" 10
           (create_access_token "k" 0 aliceRow.username (some 480))
           (deactivateUser [aliceRow] aliceRow.username)
         = Except.error credentials_exception) :=
  ⟨by decide, by decide, by decide,
   token_roundtrip "k" 0 480 10 [aliceRow] aliceRow (by decide) (by decide) (by decide)⟩

/-- A true scope condition pins the row to the agent of the caller. -/
theorem scopePred_agent_eq (u : UserInDB) (v : Visitor)
    (h : scopePred u v = true) : u.agent_id = some v.capturing_agent_id := by
  cases ha : u.agent_id with
  | none => simp [scopePred, ha] at h
  | some a =>
    simp only [scopePred, ha, beq_iff_eq] at h
    simp [ha, h]

/-- For a `user`-role caller the compiled listing predicate implies the
scope condition. -/
theorem visitorMatches_user_scope (u : UserInDB) (f : ListFilters) (v : Visitor)
    (hrole : u.role = "user") (h : visitorMatches u f v = true) :
    u.agent_id = some v.capturing_agent_id := by
  simp only [visitorMatches, hrole, Bool.and_eq_true] at h
  exact scopePred_agent_eq u v (by simpa using h.1)

/-- Rows produced by `sortRows` are rows of the input. -/
theorem mem_of_mem_sortRows (sb : SortField) (so : SortOrder)
    (rows : List Visitor) (v : Visitor) (h : v ∈ sortRows sb so rows) :
    v ∈ rows := by
  cases so <;> simpa [sortRows, List.mem_mergeSort] using h

/-- Claim C1.  Every Visitor returned to a `user`-role caller by the
listing predicate, the full paginated listing, the single-visitor get,
and the CSV export carries the `capturing_agent_id` of the caller, whatever
filter/search/sort/pagination parameters are supplied; the three
`user`-branch stats counts only count such rows; and for `admin` /
`super_admin` callers the listing and export predicates reduce to the
caller-independent filter predicate, the get succeeds on any existing
visitor, and the stats are caller-independent. -/
theorem user_scope_enforced :
    (∀ (u : UserInDB) (f : ListFilters) (v : Visitor),
       u.role = "user" → visitorMatches u f v = true →
       u.agent_id = some v.capturing_agent_id)
    ∧ (∀ (u : UserInDB) (f : ListFilters) (v : Visitor),
       (u.role = "admin" ∨ u.role = "super_admin") →
       visitorMatches u f v = filtersPred f v)
    ∧ (∀ (u : UserInDB) (f : ListFilters) (sb : SortField) (so : SortOrder)
         (page pageSize : Nat) (db : Db) (items : List Visitor) (total : Nat),
       u.role = "user" →
       list_visitors u f sb so page pageSize db = Except.ok (items, total) →
       ∀ v ∈ items, u.agent_id = some v.capturing_agent_id)
    ∧ (∀ (u : UserInDB) (vid : Nat) (db : Db) (r : Visitor × List NoteRow),
       u.role = "user" → get_visitor u vid db = Except.ok r →
       u.agent_id = some r.1.capturing_agent_id)
    ∧ (∀ (u : UserInDB) (vid : Nat) (db : Db) (v : Visitor),
       (u.role = "admin" ∨ u.role = "super_admin") →
       db.visitors.find? (fun w => w.id == vid) = some v →
       get_visitor u vid db = Except.ok (v, visitorNotes db vid))
    ∧ (∀ (u : UserInDB) (site : Option String) (db : Db) (v : Visitor),
       u.role = "user" → v ∈ export_visitors_csv u site db →
       u.agent_id = some v.capturing_agent_id)
    ∧ (∀ (u : UserInDB) (site : Option String) (v : Visitor),
       (u.role = "admin" ∨ u.role = "super_admin") →
       exportPred u site v = exportSitePred site v)
    ∧ (∀ (u : UserInDB) (site : Option String) (today : String) (v : Visitor),
       u.role = "user" →
       (statsTotalPredUser u site v = true → u.agent_id = some v.capturing_agent_id)
       ∧ (statsTodayPredUser u site today v = true →
            u.agent_id = some v.capturing_agent_id)
       ∧ (statsSyncedPredUser u v = true → u.agent_id = some v.capturing_agent_id))
    ∧ (∀ (u u' : UserInDB) (site : Option String) (today : String) (db : Db),
       (u.role = "admin" ∨ u.role = "super_admin") →
       (u'.role = "admin" ∨ u'.role = "super_admin") →
       get_stats u site today db = get_stats u' site today db) := by
  refine ⟨visitorMatches_user_scope, ?_, ?_, ?_, ?_, ?_, ?_, ?_, ?_⟩
  · intro u f v h
    rcases h with h | h <;> simp [visitorMatches, h]
  · intro u f sb so page pageSize db items total hrole heq v hv
    simp only [list_visitors] at heq
    split at heq
    · cases heq
    split at heq
    · cases heq
    simp only [Except.ok.injEq, Prod.mk.injEq] at heq
    have hitems := heq.1
    subst hitems
    have h1 : v ∈ sortRows sb so (db.visitors.filter (visitorMatches u f)) :=
      List.mem_of_mem_drop (List.mem_of_mem_take hv)
    have h2 := mem_of_mem_sortRows sb so _ v h1
    exact visitorMatches_user_scope u f v hrole (List.mem_filter.mp h2).2
  · intro u vid db r hrole heq
    simp only [get_visitor] at heq
    split at heq
    · cases heq
    rename_i v hf
    split at heq
    · cases heq
    rename_i hcond
    cases heq
    simp [hrole] at hcond
    exact hcond.symm
  · intro u vid db v hrole hf
    rcases hrole with h | h <;> simp [get_visitor, hf, h]
  · intro u site db v hrole hv
    have h2 := mem_of_mem_sortRows .created_at .desc _ v hv
    have h3 := (List.mem_filter.mp h2).2
    simp [exportPred, hrole, Bool.and_eq_true] at h3
    exact scopePred_agent_eq u v h3.2
  · intro u site v h
    rcases h with h | h <;> simp [exportPred, h]
  · intro u site today v hrole
    refine ⟨?_, ?_, ?_⟩
    · intro h
      simp only [statsTotalPredUser, Bool.and_eq_true] at h
      exact scopePred_agent_eq u v h.2
    · intro h
      simp only [statsTodayPredUser, Bool.and_eq_true] at h
      exact scopePred_agent_eq u v h.1.2
    · intro h
      simp only [statsSyncedPredUser, Bool.and_eq_true] at h
      exact scopePred_agent_eq u v h.2
  · intro u u' site today db h h'
    rcases h with h | h <;> rcases h' with h' | h' <;> simp [get_stats, h, h']

/-- The empty filter set (all query parameters left at their defaults). -/
def emptyFilters : ListFilters :=
  { site := none, search := none, date_from := none, date_to := none
    purchase_timeline := none, price_range := none, cinc_synced := none }

/-- A visitor captured by agent 7 (the agent linked to `aliceRow`). -/
def visitorOwn : Visitor :=
  { id := 1, buyer_name := "Bob Buyer", buyer_phone := "5551234567"
    buyer_email := none, purchase_timeline := none, price_range := none
    location_looking := none, location_current := none, occupation := none
    represented := false, agent_name := none, capturing_agent_id := 7
    site := "Oakwood", cinc_synced := 0, cinc_sync_at := none
    created_at := "2025-01-02T10:00:00", updated_at := "2025-01-02T10:00:00" }

/-- A visitor captured by a different agent. -/
def visitorOther : Visitor :=
  { visitorOwn with id := 2, capturing_agent_id := 9 }

/-- An admin caller with no linked agent. -/
def adminCaller : UserInDB :=
  { id := 2, username := "boss", role := "admin", agent_id := none, active := true }

/-- Witness for C1: the listing-predicate conjunct at a concrete
`user`-role caller and matching row, and the admin conjunct at a
concrete admin. -/
theorem user_scope_enforced_witness :
    aliceRow.agent_id = some visitorOwn.capturing_agent_id
    ∧ visitorMatches adminCaller emptyFilters visitorOther
        = filtersPred emptyFilters visitorOther :=
  ⟨user_scope_enforced.1 aliceRow emptyFilters visitorOwn rfl (by decide),
   user_scope_enforced.2.1 adminCaller emptyFilters visitorOther (Or.inl rfl)⟩

/-- The fixed allow-list of sortable field names. -/
def allowedSortFields : List String :=
  ["created_at", "buyer_name", "site", "updated_at"]

/-- Claim C3.  A sort-field value outside the allow-list is rejected by
enum coercion (422) before any query is issued; the allow-list values
round-trip through the enum; and the column placed in the ORDER BY
position of the listing query, as well as the fixed export ordering
column, is always an allow-list member. -/
theorem sort_field_allowlist :
    (∀ s : String, s ∉ allowedSortFields → parseSortField s = none)
    ∧ (∀ sf : SortField, parseSortField sf.value = some sf)
    ∧ (∀ sf : SortField, listOrderColumn sf ∈ allowedSortFields)
    ∧ exportOrderColumn ∈ allowedSortFields := by
  refine ⟨?_, ?_, ?_, by decide⟩
  · intro s h
    simp only [allowedSortFields, List.mem_cons, List.not_mem_nil, or_false,
      not_or] at h
    obtain ⟨h1, h2, h3, h4⟩ := h
    simp [parseSortField, h1, h2, h3, h4]
  · intro sf
    cases sf <;> decide
  · intro sf
    cases sf <;> decide

/-- Witness for C3 at a concrete injection-shaped sort value. -/
theorem sort_field_allowlist_witness :
    "id; DELETE FROM visitors" ∉ allowedSortFields
    ∧ parseSortField "id; DELETE FROM visitors" = none :=
  ⟨by decide, sort_field_allowlist.1 "id; DELETE FROM visitors" (by decide)⟩

/-- Claim C2 (counterexample).  The admin-branch leads-by-agent query of
`get_analytics` interpolates the caller-supplied site value into the SQL
text via an f-string and binds no parameters: two different site values
yield two different query strings while the bound-parameter list is
empty in both cases, so this value is not passed as a bound parameter. -/
theorem analytics_site_interpolated :
    (analyticsAgentQuery (some "Oakwood")).1 ≠ (analyticsAgentQuery (some "Elmwood")).1
    ∧ (analyticsAgentQuery (some "Oakwood")).2 = []
    ∧ (analyticsAgentQuery (some "Elmwood")).2 = [] :=
  ⟨by decide, rfl, rfl⟩

/-- A filter-presence-only segment of the WHERE clause is determined by
presence alone. -/
theorem condSeg_eq {α β : Type} (a : Option α) (b : Option β) (c : List String)
    (h : a.isSome = b.isSome) : condSeg a c = condSeg b c := by
  cases a <;> cases b
  · rfl
  · simp [Option.isSome] at h
  · simp [Option.isSome] at h
  · rfl

/-- The `where_conditions` list depends only on the role of the caller and on
which filters are present. -/
theorem whereConds_shape (u u' : UserInDB) (f f' : ListFilters)
    (hrole : u.role = u'.role) (hshape : f.shape = f'.shape) :
    whereConds u f = whereConds u' f' := by
  simp only [ListFilters.shape, Prod.mk.injEq] at hshape
  obtain ⟨s1, s2, s3, s4, s5, s6, s7⟩ := hshape
  unfold whereConds
  rw [hrole,
    condSeg_eq (optTruthy f.site) (optTruthy f'.site) _ s1,
    condSeg_eq (optTruthy f.search) (optTruthy f'.search) _ s2,
    condSeg_eq (optTruthy f.date_from) (optTruthy f'.date_from) _ s3,
    condSeg_eq (optTruthy f.date_to) (optTruthy f'.date_to) _ s4,
    condSeg_eq f.purchase_timeline f'.purchase_timeline _ s5,
    condSeg_eq f.price_range f'.price_range _ s6,
    condSeg_eq f.cinc_synced f'.cinc_synced _ s7]

/-- Claim C2 (amended).  Every caller-supplied filter value reaching the
listing, count, export and role-scoped analytics queries is bound, the
query text depending only on the role of the caller and on the filters
present — with the single exception of the site value in the admin
leads-by-agent analytics query, which is interpolated into the text and
bound to no parameter. -/
theorem filter_values_bound (u u' : UserInDB) (f f' : ListFilters)
    (site site' : Option String) (sb : SortField) (so : SortOrder)
    (hrole : u.role = u'.role) (hshape : f.shape = f'.shape)
    (hsite : (optTruthy site).isSome = (optTruthy site').isSome) :
    listVisitorsQueryText u f sb so = listVisitorsQueryText u' f' sb so
    ∧ countQueryText u f = countQueryText u' f'
    ∧ (analyticsWhere u site).1 = (analyticsWhere u' site').1
    ∧ (exportQuery u site).1 = (exportQuery u' site').1
    ∧ (analyticsAgentQuery site).2 = [] := by
  have hconds := whereConds_shape u u' f f' hrole hshape
  have hclause : whereClause u f = whereClause u' f' := by
    unfold whereClause
    rw [hconds]
  refine ⟨?_, ?_, ?_, ?_, rfl⟩
  · unfold listVisitorsQueryText
    rw [hclause]
  · unfold countQueryText
    rw [hclause]
  · unfold analyticsWhere
    rw [hrole]
    split <;> (cases ho : optTruthy site <;> cases ho' : optTruthy site' <;> simp_all)
  · unfold exportQuery
    rw [hrole]
    split <;> (cases ho : optTruthy site <;> cases ho' : optTruthy site' <;> simp_all)

/-- A filter set with values, matching `filtersB` in shape only. -/
def filtersA : ListFilters :=
  { site := some "Oakwood", search := some "bob", date_from := none
    date_to := none, purchase_timeline := none, price_range := none
    cinc_synced := some true }

/-- Same filter shape as `filtersA`, different values. -/
def filtersB : ListFilters :=
  { site := some "Elmwood", search := some "eve", date_from := none
    date_to := none, purchase_timeline := none, price_range := none
    cinc_synced := some false }

/-- Witness for the amended C2 theorem at concrete filter values. -/
theorem filter_values_bound_witness :
    aliceRow.role = aliceRow.role
    ∧ filtersA.shape = filtersB.shape
    ∧ (optTruthy (some "Oakwood")).isSome = (optTruthy (some "Elmwood")).isSome
    ∧ (listVisitorsQueryText aliceRow filtersA SortField.created_at SortOrder.desc
         = listVisitorsQueryText aliceRow filtersB SortField.created_at SortOrder.desc
       ∧ countQueryText aliceRow filtersA = countQueryText aliceRow filtersB
       ∧ (analyticsWhere aliceRow (some "Oakwood")).1
           = (analyticsWhere aliceRow (some "Elmwood")).1
       ∧ (exportQuery aliceRow (some "Oakwood")).1
           = (exportQuery aliceRow (some "Elmwood")).1
       ∧ (analyticsAgentQuery (some "Oakwood")).2 = []) :=
  ⟨rfl, by decide, by decide,
   filter_values_bound aliceRow aliceRow filtersA filtersB
     (some "Oakwood") (some "Elmwood") SortField.created_at SortOrder.desc
     rfl (by decide) (by decide)⟩

/-- A failed dispatch outcome always carries an error string. -/
theorem sync_failure_has_error (url : String) (net : NetResult)
    (h : (sync_to_zapier url net).success = false) :
    (sync_to_zapier url net).error.isSome = true := by
  by_cases hu : (url == "") = true
  · simp [sync_to_zapier, hu]
  · cases net with
    | netError m => simp [sync_to_zapier, hu]
    | response sc =>
      by_cases hsc : 400 ≤ sc
      · simp [sync_to_zapier, hu, hsc]
      · simp [sync_to_zapier, hu, hsc] at h

/-- Claim C4.  Whenever the dispatch fails — unconfigured endpoint,
network error, or non-success HTTP status, i.e. whenever the outcome is
unsuccessful — visitor creation still succeeds: the new row is stored
with `cinc_synced = 0`, and the response reports `synced = false` with a
populated error string.  The only error path of `create_visitor` is a
missing agent, so a dispatch failure is never escalated. -/
theorem creation_survives_sync_failure (req : VisitorCreate) (url : String)
    (net : NetResult) (nowIso : String) (db : Db)
    (hagent : (db.agents.find? (fun a => a.id == req.capturing_agent_id)).isSome = true)
    (hfail : (sync_to_zapier url net).success = false) :
    ∃ db' resp, create_visitor req url net nowIso db = Except.ok (db', resp)
      ∧ resp.synced = false
      ∧ resp.sync_error.isSome = true
      ∧ (∃ v, db'.visitors.getLast? = some v
          ∧ v.cinc_synced = 0 ∧ v.id = resp.id
          ∧ v.capturing_agent_id = req.capturing_agent_id) := by
  rcases ha : db.agents.find? (fun a => a.id == req.capturing_agent_id) with _ | a
  · rw [ha] at hagent
    simp at hagent
  · cases hn : req.notes with
    | none =>
      unfold create_visitor
      rw [ha, hn]
      refine ⟨_, _, rfl, hfail, sync_failure_has_error url net hfail, ?_⟩
      simp only [hfail, Bool.false_eq_true, if_false]
      exact ⟨_, List.getLast?_concat _, rfl, rfl, rfl⟩
    | some n =>
      unfold create_visitor
      rw [ha, hn]
      refine ⟨_, _, rfl, hfail, sync_failure_has_error url net hfail, ?_⟩
      simp only [hfail, Bool.false_eq_true, if_false]
      exact ⟨_, List.getLast?_concat _, rfl, rfl, rfl⟩

/-- Concrete database for the creation witnesses: one agent, empty
visitor table. -/
def dbOneAgent : Db :=
  { users := [aliceRow]
    agents := [{ id := 7, name := "Agent Seven", cinc_id := "c7",
                 site := "Oakwood", email := none }]
    visitors := [], notes := []
    nextUserId := 2, nextVisitorId := 1, nextNoteId := 1 }

/-- A visitor-creation request captured by agent 7. -/
def reqVisitor : VisitorCreate :=
  { buyer_name := "Bob Buyer", buyer_phone := "5551234567"
    buyer_email := none, purchase_timeline := none, price_range := none
    location_looking := none, location_current := none, occupation := none
    represented := false, agent_name := none, capturing_agent_id := 7
    site := "Oakwood", notes := none }

/-- Witness for C4 with an unconfigured webhook URL. -/
theorem creation_survives_sync_failure_witness :
    (dbOneAgent.agents.find? (fun a => a.id == reqVisitor.capturing_agent_id)).isSome = true
    ∧ (sync_to_zapier "" (NetResult.netError "unreachable")).success = false
    ∧ (∃ db' resp,
        create_visitor reqVisitor "" (NetResult.netError "unreachable")
          "2025-01-02T10:00:00" dbOneAgent = Except.ok (db', resp)
        ∧ resp.synced = false
        ∧ resp.sync_error.isSome = true
        ∧ (∃ v, db'.visitors.getLast? = some v
            ∧ v.cinc_synced = 0 ∧ v.id = resp.id
            ∧ v.capturing_agent_id = reqVisitor.capturing_agent_id)) :=
  ⟨by decide, by decide,
   creation_survives_sync_failure reqVisitor "" (NetResult.netError "unreachable")
     "2025-01-02T10:00:00" dbOneAgent (by decide) (by decide)⟩

/-- Claim C5 (counterexample).  The claim states the Visitor row is
durably committed before the dispatch is attempted.  In the concrete
no-notes, failed-sync run of `create_visitor` the dispatch does occur,
but no commit precedes it: the single commit of the surrounding
`get_db()` block happens only at block exit. -/
theorem no_commit_before_dispatch :
    (create_visitor_trace false false).contains DbOp.dispatchSync = true
    ∧ ((create_visitor_trace false false).takeWhile
        (fun op => op != DbOp.dispatchSync)).contains DbOp.commitTx = false :=
  ⟨by decide, by decide⟩

/-- Claim C5 (amended).  The visitor INSERT, the dispatch and the
conditional sync-flag UPDATE all run inside one transaction with exactly
one commit, placed last — after the dispatch; the INSERT does precede
the dispatch, but it is not durably committed before dispatch, so a
crash before the final commit rolls the INSERT back rather than leaving
a persisted visitor with `synced = false`. -/
theorem single_commit_after_dispatch (hasNotes syncSuccess : Bool) :
    (create_visitor_trace hasNotes syncSuccess).count DbOp.commitTx = 1
    ∧ (create_visitor_trace hasNotes syncSuccess).getLast? = some DbOp.commitTx
    ∧ (create_visitor_trace hasNotes syncSuccess).contains DbOp.dispatchSync = true
    ∧ ((create_visitor_trace hasNotes syncSuccess).takeWhile
        (fun op => op != DbOp.dispatchSync)).contains DbOp.commitTx = false
    ∧ ((create_visitor_trace hasNotes syncSuccess).takeWhile
        (fun op => op != DbOp.dispatchSync)).contains DbOp.insertVisitor = true := by
  cases hasNotes <;> cases syncSuccess <;> exact ⟨by decide, by decide, by decide, by decide, by decide⟩

/-- A `user`-role creation request with no linked agent. -/
def reqUserNoAgent : UserCreate :=
  { username := "bob", password := "Passw0rd", email := none
    role := Role.user, agent_id := none }

/-- The row inserted by a `create_user` call, when it succeeds. -/
def createdUserRow (actor : UserInDB) (req : UserCreate) (db : Db) :
    Option UserInDB :=
  match create_user actor req db with
  | .ok p => some p.2
  | .error _ => none

/-- Claim C7 (counterexample).  The claim states every user-creating or
role/agent-modifying operation preserves "role `user` implies non-null
`agent_id`".  At this concrete input an admin creates a `user`-role
account with `agent_id = NULL` and `create_user` accepts it. -/
theorem user_role_null_agent_created :
    createdUserRow adminCaller reqUserNoAgent dbOneAgent
      = some { id := 2, username := "bob", role := "user"
               agent_id := none, active := true } := by
  decide

/-- Claim C7 (amended).  `create_user` validates that a supplied
`agent_id` references an existing agent, but does not tie the `user`
role to a non-null agent link: any `user`-role request with
`agent_id = NULL` and a fresh username is accepted and stored with a
null agent link (and `update_user` contains no such check either). -/
theorem user_role_agent_link_unenforced (actor : UserInDB) (req : UserCreate)
    (db : Db)
    (hrole : req.role = Role.user)
    (hagent : req.agent_id = none)
    (hname : db.users.any (fun x => x.username == req.username) = false) :
    ∃ p, create_user actor req db = Except.ok p
      ∧ p.2.role = "user" ∧ p.2.agent_id = none ∧ p.2.active = true := by
  unfold create_user
  rw [hrole, hagent, hname]
  have h1 : (Role.user == Role.super_admin) = false := rfl
  simp only [h1, Bool.false_and, Bool.false_eq_true, if_false]
  refine ⟨insertUserRow req db, rfl, ?_, ?_, rfl⟩
  · show req.role.value = "user"
    rw [hrole]
    rfl
  · show req.agent_id = none
    exact hagent

/-- Witness for the amended C7 theorem at a concrete admin and request. -/
theorem user_role_agent_link_unenforced_witness :
    reqUserNoAgent.role = Role.user
    ∧ reqUserNoAgent.agent_id = none
    ∧ dbOneAgent.users.any (fun x => x.username == reqUserNoAgent.username) = false
    ∧ (∃ p, create_user adminCaller reqUserNoAgent dbOneAgent = Except.ok p
        ∧ p.2.role = "user" ∧ p.2.agent_id = none ∧ p.2.active = true) :=
  ⟨rfl, rfl, by decide,
   user_role_agent_link_unenforced adminCaller reqUserNoAgent dbOneAgent
     rfl rfl (by decide)⟩

/-- A self-targeting update that only sets `active = false`. -/
def reqSelfDeactivate : UserUpdate :=
  { email := none, password := none, role := none, agent_id := none
    active := some false }

/-- A database holding only the own account of the admin. -/
def dbAdminOnly : Db :=
  { users := [adminCaller], agents := [], visitors := [], notes := []
    nextUserId := 3, nextVisitorId := 1, nextNoteId := 1 }

/-- Claim C8 (counterexample).  The claim states any request by which an
admin would set their own account inactive fails with Forbidden and
leaves the account active.  At this concrete input the admin updates
their own account with `active = false` and `update_user` succeeds,
leaving the account deactivated. -/
theorem self_deactivation_possible :
    update_user adminCaller adminCaller.id reqSelfDeactivate dbAdminOnly
      = Except.ok { dbAdminOnly with
                    users := [{ adminCaller with active := false }] } := by
  rfl

/-- Mapping an id-preserving row update across the table moves under the
id lookup. -/
theorem find?_update_map (l : List UserInDB) (uid : Nat)
    (g : UserInDB → UserInDB) (hid : ∀ x, (g x).id = x.id) (target : UserInDB)
    (hfind : l.find? (fun x => x.id == uid) = some target) :
    (l.map g).find? (fun x => x.id == uid) = some (g target) := by
  rw [List.find?_map]
  have hp : ((fun x : UserInDB => x.id == uid) ∘ g)
      = (fun x : UserInDB => x.id == uid) := by
    funext x
    simp [Function.comp, hid]
  rw [hp, hfind]
  rfl

/-- Claim C8 (amended).  `delete_user` rejects self-deletion — with
status 400, not 403 — but `update_user` has no
self-deactivation guard: an actor whose own row is not above their tier
can set `active = false` on themselves via user-update, and the call
succeeds leaving the account inactive. -/
theorem self_deactivation_policy (actor target : UserInDB) (db : Db)
    (req : UserUpdate)
    (hfind : db.users.find? (fun x => x.id == actor.id) = some target)
    (hsuper : (target.role == "super_admin" && actor.role != "super_admin") = false)
    (hreq : req = reqSelfDeactivate) :
    delete_user actor actor.id db
      = Except.error { status := 400, detail := "Cannot delete your own account" }
    ∧ ∃ db', update_user actor actor.id req db = Except.ok db'
        ∧ (db'.users.find? (fun x => x.id == actor.id)).map (fun x => x.active)
            = some false := by
  constructor
  · simp only [delete_user, hfind]
    simp
  · subst hreq
    have h2 : (reqSelfDeactivate.role == some Role.super_admin) = false := rfl
    have h3 : (match reqSelfDeactivate.agent_id with
               | some a => !db.agents.any fun ag => ag.id == a
               | none => false) = false := rfl
    have h4 : (!reqSelfDeactivate.hasUpdates) = false := rfl
    simp only [update_user, hfind, hsuper, h2, h3, h4, Bool.false_and,
      Bool.false_eq_true, if_false]
    refine ⟨_, rfl, ?_⟩
    have hid : ∀ x : UserInDB,
        ((fun x : UserInDB => if x.id == actor.id
            then applyUserUpdate reqSelfDeactivate x else x) x).id = x.id := by
      intro x
      by_cases h : (x.id == actor.id) = true <;> simp [h, applyUserUpdate]
    rw [find?_update_map db.users actor.id _ hid target hfind]
    have htid : (target.id == actor.id) = true := by
      have h5 := List.find?_some hfind
      simpa using h5
    simp [htid, applyUserUpdate, reqSelfDeactivate]

/-- Witness for the amended C8 theorem: the concrete admin deactivating
themselves. -/
theorem self_deactivation_policy_witness :
    dbAdminOnly.users.find? (fun x => x.id == adminCaller.id) = some adminCaller
    ∧ ((adminCaller.role == "super_admin")
        && (adminCaller.role != "super_admin")) = false
    ∧ (delete_user adminCaller adminCaller.id dbAdminOnly
        = Except.error { status := 400, detail := "Cannot delete your own account" }
       ∧ ∃ db', update_user adminCaller adminCaller.id reqSelfDeactivate dbAdminOnly
           = Except.ok db'
          ∧ (db'.users.find? (fun x => x.id == adminCaller.id)).map (fun x => x.active)
              = some false) :=
  ⟨by decide, by decide,
   self_deactivation_policy adminCaller adminCaller dbAdminOnly reqSelfDeactivate
     (by decide) (by decide) rfl⟩

/-- Claim C10.  For any authenticated caller, whatever their role or
agent link, `add_note` succeeds on any existing visitor — including one
captured by a different agent — and the stored `agent_id` of the note is the
one supplied in the request body; the result does not depend on the
caller at all. -/
theorem add_note_unrestricted (caller caller2 : UserInDB) (vid : Nat)
    (req : NoteCreate) (nowIso : String) (db : Db)
    (hvis : db.visitors.any (fun v => v.id == vid) = true) :
    (∃ p, add_note caller vid req nowIso db = Except.ok p
       ∧ p.2.agent_id = req.agent_id ∧ p.2.visitor_id = vid
       ∧ p.2.note = req.note)
    ∧ add_note caller vid req nowIso db = add_note caller2 vid req nowIso db := by
  constructor
  · unfold add_note
    simp only [hvis, if_true]
    exact ⟨_, rfl, rfl, rfl, rfl⟩
  · rfl

/-- A database holding a visitor captured by agent 9, not by agent 7
(the agent linked to the caller `aliceRow`). -/
def dbOneVisitor : Db :=
  { users := [aliceRow], agents := [], visitors := [visitorOther], notes := []
    nextUserId := 2, nextVisitorId := 3, nextNoteId := 1 }

/-- A note request naming an arbitrary author agent 42. -/
def reqNote : NoteCreate :=
  { visitor_id := 2, agent_id := 42, note := "called back" }

/-- Witness for C10: a `user`-role caller annotating a visitor they do
not own, with a body agent id unrelated to them. -/
theorem add_note_unrestricted_witness :
    dbOneVisitor.visitors.any (fun v => v.id == 2) = true
    ∧ ((∃ p, add_note aliceRow 2 reqNote "2025-01-03T09:00:00" dbOneVisitor
          = Except.ok p
        ∧ p.2.agent_id = reqNote.agent_id ∧ p.2.visitor_id = 2
        ∧ p.2.note = reqNote.note)
       ∧ add_note aliceRow 2 reqNote "2025-01-03T09:00:00" dbOneVisitor
           = add_note adminCaller 2 reqNote "2025-01-03T09:00:00" dbOneVisitor) :=
  ⟨by decide,
   add_note_unrestricted aliceRow adminCaller 2 reqNote "2025-01-03T09:00:00"
     dbOneVisitor (by decide)⟩

end LeadTracker
